import Mathlib

/-!
Verification development for the Prom.UA converter bot
(repository sources: bot_1_0.py, bot_1_1.py, bot_1_2.py).

The three source files share a common pipeline:
  normalize_df → find_first_col → merge_ru_ua → (to_prom_excel | to_prom_yml)
with per-row field extractors pick_price and build_image_list.

This file is a shallow embedding of that pipeline.  Python / pandas values
are modelled explicitly:
  * a spreadsheet cell is `Cell` (missing value NaN, string, or number);
  * a pandas row (Series) is an association list of column name to cell;
  * a DataFrame is a header list plus such rows;
  * Python floats are modelled as rationals (`Rat`); the binary rounding of
    IEEE doubles is not modelled — no claim below depends on it;
  * `str.lower()` is modelled on the ASCII range (the alias lists in the
    source are already lower-case) and `str.strip()` strips the usual
    whitespace characters.
-/

/-- A pandas cell: `na` models both NaN and None (`pd.notna` is false on
both, and both appear only where the distinction does not matter for this
program), `s` a Python string, `num` a Python float (as an exact rational). -/
inductive Cell where
  | na : Cell
  | s (v : String) : Cell
  | num (q : Rat) : Cell
deriving DecidableEq, Repr

/-- Characters stripped by Python `str.strip()`. -/
def isPySpace (c : Char) : Bool :=
  c = ' ' || c = '\t' || c = '\n' || c = '\r' || c = '\x0b' || c = '\x0c'

/-- Left strip on character lists. -/
def ltrimChars (l : List Char) : List Char := l.dropWhile isPySpace

/-- Right strip on character lists. -/
def rtrimChars (l : List Char) : List Char := (ltrimChars l.reverse).reverse

/-- Model of Python `str.strip()` (no argument form). -/
def pyStrip (str : String) : String := ⟨rtrimChars (ltrimChars str.data)⟩

/-- Model of Python `str.lower()` on the ASCII range. -/
def pyLower (str : String) : String := ⟨str.data.map Char.toLower⟩

/-- Model of Python `str.split(",")` (keeps empty pieces, `"" → [""]`). -/
def splitCommaChars (l : List Char) : List String :=
  match l with
  | [] => [""]
  | c :: rest =>
    let tail := splitCommaChars rest
    if c = ',' then "" :: tail
    else
      match tail with
      | [] => [⟨[c]⟩]
      | h :: t => (⟨c :: h.data⟩ : String) :: t

/-- Model of Python `str.split(",")`. -/
def pySplitComma (str : String) : List String := splitCommaChars str.data

/-- Model of Python `str.replace(old, new)` for a one-character `old`
(the only form the source uses): every occurrence of the character is
replaced. -/
def pyReplaceChar (str : String) (old : Char) (new : String) : String :=
  ⟨(str.data.map (fun c => if c = old then new.data else [c])).flatten⟩

/-- First `n` characters of a string: Python `s[:n]`. -/
def strTake (n : Nat) (str : String) : String := ⟨str.data.take n⟩

/-- Model of Python `", ".join` / `", ".join`-style joining. -/
def joinSep (sep : String) : List String → String
  | [] => ""
  | [x] => x
  | x :: rest => x ++ sep ++ joinSep sep rest

/-- `listPrefix p l`: `p` is a prefix of `l` (executable). -/
def listPrefix : List Char → List Char → Bool
  | [], _ => true
  | _ :: _, [] => false
  | p :: ps, c :: cs => p = c && listPrefix ps cs

/-- `containsSub hay pat`: `pat` occurs as a contiguous substring of `hay`
(executable; used to state facts about serialized documents). -/
def containsSubChars (hay pat : List Char) : Bool :=
  match hay with
  | [] => listPrefix pat []
  | _ :: rest => listPrefix pat hay || containsSubChars rest pat

/-- String-level substring occurrence. -/
def containsSub (hay pat : String) : Bool := containsSubChars hay.data pat.data

/-- Python truthiness of a cell: `bool(nan)` is `True`, `bool("")` is
`False`, a nonempty string is truthy, a float is truthy iff nonzero. -/
def Cell.truthy : Cell → Bool
  | .na => true
  | .s v => v ≠ ""
  | .num q => q ≠ 0

/-- `pd.notna` on a cell. -/
def Cell.notna : Cell → Bool
  | .na => false
  | _ => true

/-- Digits of a natural number (used by the float-repr model). -/
def natStr (n : Nat) : String := toString n

/-- Model of Python `str()` applied to a cell value: `str(nan) = "nan"`,
strings unchanged, floats rendered by `pyFloatRepr` below. -/
def pyFloatRepr (q : Rat) : String :=
  let sign := if q.num < 0 then "-" else ""
  match (List.range 28).find? (fun k => q.den ∣ 10 ^ k) with
  | none => sign ++ natStr q.num.natAbs  -- unreachable for parsed decimals
  | some k =>
    let n := q.num.natAbs * (10 ^ k / q.den)
    if k = 0 then sign ++ natStr n ++ ".0"
    else
      let ip := n / 10 ^ k
      let fp := n % 10 ^ k
      let fs := natStr fp
      let pad := String.mk (List.replicate (k - fs.length) '0')
      sign ++ natStr ip ++ "." ++ pad ++ fs

/-- Model of Python `str()` on a cell. -/
def pyStr : Cell → String
  | .na => "nan"
  | .s v => v
  | .num q => pyFloatRepr q

/-- Digit list to value. -/
def digitsVal (l : List Char) : Nat :=
  l.foldl (fun acc c => acc * 10 + (c.toNat - '0'.toNat)) 0

/-- Model of CPython `float(s)` on finite decimal literals: optional sign,
an integer part and/or a fractional part (at least one digit overall), and
an optional exponent.  The `inf`/`nan` spellings and `_` digit separators
accepted by CPython are not modelled — no input the program or the claims
exercise uses them.  Returns `none` exactly when `float` raises
`ValueError`. -/
def pyFloat (str : String) : Option Rat :=
  let chars := str.data
  let (sign, rest) :=
    match chars with
    | '+' :: r => ((1 : Int), r)
    | '-' :: r => ((-1 : Int), r)
    | r => ((1 : Int), r)
  let ip := rest.takeWhile Char.isDigit
  let rest1 := rest.dropWhile Char.isDigit
  let (fp, rest2) :=
    match rest1 with
    | '.' :: r => (r.takeWhile Char.isDigit, r.dropWhile Char.isDigit)
    | r => ([], r)
  if ip.isEmpty ∧ fp.isEmpty then none
  else
    -- mantissa = (intpart · 10^f + fracpart) / 10^f with f fractional digits
    let mantNum : Int := sign * ((digitsVal ip * 10 ^ fp.length + digitsVal fp : Nat) : Int)
    let mantDen : Nat := 10 ^ fp.length
    match rest2 with
    | [] => some (mkRat mantNum mantDen)
    | e :: r =>
      if e = 'e' ∨ e = 'E' then
        let (eneg, er) :=
          match r with
          | '+' :: r2 => (false, r2)
          | '-' :: r2 => (true, r2)
          | r2 => (false, r2)
        let ed := er.takeWhile Char.isDigit
        if ed.isEmpty ∨ ¬ (er.dropWhile Char.isDigit).isEmpty then none
        else
          let ex := digitsVal ed
          if eneg then some (mkRat mantNum (mantDen * 10 ^ ex))
          else some (mkRat (mantNum * (10 ^ ex : Nat)) mantDen)
      else none

/-! ## Rows, tables and dictionaries -/

/-- A pandas row (`Series`), as produced by `df.iterrows()`: an association
list from column label to cell.  `col in row` is key membership and
`row.get(col, default)` is lookup with default. -/
abbrev Row := List (String × Cell)

/-- `col in row` (pandas Series membership is on the index). -/
def rowHas (r : Row) (k : String) : Bool := (r.lookup k).isSome

/-- `row.get(col, default)` / `row[col]` with an explicit default. -/
def rowGet (r : Row) (k : String) (dflt : Cell) : Cell := (r.lookup k).getD dflt

/-- `row[col] = v` for an association-list row: replace in place if the key
exists, append otherwise (Python dict/Series update semantics). -/
def rowSet (r : Row) (k : String) (v : Cell) : Row :=
  match r with
  | [] => [(k, v)]
  | (k0, v0) :: rest => if k0 = k then (k, v) :: rest else (k0, v0) :: rowSet rest k v

/-- A pandas DataFrame: a column-label list plus rows.  Each row is kept as
an association list whose keys are the table's columns. -/
structure Table where
  header : List String
  rows : List Row
deriving DecidableEq

/-- `normalize_df`: `df.columns = [str(c).strip().lower() for c in df.columns]`
(shared verbatim by all three source versions). -/
def normHdr (c : String) : String := pyLower (pyStrip c)

/-- `normalize_df` on a whole table (relabels the columns). -/
def normalize_df (t : Table) : Table :=
  { header := t.header.map normHdr,
    rows := t.rows.map (fun r => r.map (fun kv => (normHdr kv.1, kv.2))) }

/-- `find_first_col` (identical in all three sources): first alias present
among the table's columns, else `None`. -/
def find_first_col (t : Table) (candidates : List String) : Option String :=
  candidates.find? (fun c => c ∈ t.header)

/-- `df[name] = f(row)` column assignment: sets the cell in every row and
adds the label to the header if new. -/
def tableSetCol (t : Table) (k : String) (f : Row → Cell) : Table :=
  { header := if k ∈ t.header then t.header else t.header ++ [k],
    rows := t.rows.map (fun r => rowSet r k (f r)) }

/-- `df[[c1, c2, ...]]` column selection; raises `KeyError` (modelled as
`Except.error`) when a label is missing, as pandas does. -/
def selectCols (t : Table) (cols : List String) : Except String Table :=
  match cols.find? (fun c => c ∉ t.header) with
  | some c => .error ("KeyError: " ++ c)
  | none =>
    .ok { header := cols,
          rows := t.rows.map (fun r => cols.map (fun c => (c, rowGet r c Cell.na))) }

/-- `df.rename(columns={old: new})`. -/
def renameCol (t : Table) (old new : String) : Table :=
  let ren := fun k => if k = old then new else k
  { header := t.header.map ren,
    rows := t.rows.map (fun r => r.map (fun kv => (ren kv.1, kv.2))) }

/-- `left.merge(right, on=key, how='left')`: pandas stable left join — for
each left row in order, one output row per matching right row (in right
order); a left row with no match keeps NaN in the right-only columns.
(The key cells produced by this program are always strings, so the
NaN-keys-never-match corner of pandas is not reachable.) -/
def leftJoin (left right : Table) (key : String) : Table :=
  let rightCols := right.header.filter (fun c => c ≠ key)
  { header := left.header ++ rightCols,
    rows := (left.rows.map (fun lr =>
      let ms := right.rows.filter (fun rr => rowGet rr key Cell.na = rowGet lr key Cell.na)
      if ms.isEmpty then [lr ++ rightCols.map (fun c => (c, Cell.na))]
      else ms.map (fun rr => lr ++ rightCols.map (fun c => (c, rowGet rr c Cell.na))))).flatten }

/-- `df[col] = df[src].astype(str).str.strip()` (the `_id` derivation):
`KeyError` when `src` is not a column. -/
def addStrippedCol (t : Table) (dst src : String) : Except String Table :=
  if src ∈ t.header then
    .ok (tableSetCol t dst (fun r => Cell.s (pyStrip (pyStr (rowGet r src Cell.na)))))
  else .error ("KeyError: " ++ src)

/-- `df[col] = df[src].astype(str)`: `KeyError` when `src` is missing. -/
def addStrCol (t : Table) (dst src : String) : Except String Table :=
  if src ∈ t.header then
    .ok (tableSetCol t dst (fun r => Cell.s (pyStr (rowGet r src Cell.na))))
  else .error ("KeyError: " ++ src)

/-! ## The exporter item dictionary

`item: Dict[str, Optional[str]] = {c: '' for c in PROM_XLS_COLS}` followed by
key assignments.  The dictionary is modelled as a map from label to
`Option Cell` (`none` = key absent).  Python dict insertion order only
influences the column order of the final `pd.DataFrame(rows)`, which no part
of the specification's claims observes, so it is not tracked. -/

def Item := String → Option Cell

/-- `{c: '' for c in cols}`. -/
def initItem (cols : List String) : Item :=
  fun k => if k ∈ cols then some (Cell.s "") else none

/-- `item[k] = v`. -/
def dset (d : Item) (k : String) (v : Cell) : Item :=
  fun k2 => if k2 = k then some v else d k2

/-- `f"Назва_Характеристики_{i}"`. -/
def nameCol (i : Nat) : String := "Назва_Характеристики_" ++ natStr i

/-- `f"Одиниця_виміру_Характеристики_{i}"`. -/
def unitCol (i : Nat) : String := "Одиниця_виміру_Характеристики_" ++ natStr i

/-- `f"Значення_Характеристики_{i}"`. -/
def valCol (i : Nat) : String := "Значення_Характеристики_" ++ natStr i

/-- The attribute-triplet collection loop, shared by every exporter:
for each `(eng, uk)` pair in declared order, if column `eng` is present and
non-NA and its stripped string value is nonempty, emit `(uk, "", value)`. -/
def eligibleTriplets (params : List (String × String)) (r : Row) :
    List (String × String × String) :=
  params.filterMap (fun p =>
    if (rowHas r p.1 && (rowGet r p.1 Cell.na).notna) then
      let val := pyStrip (pyStr (rowGet r p.1 Cell.na))
      if val ≠ "" then some (p.2, "", val) else none
    else none)

/-- `for i, (nm, unit, val) in enumerate(ts, start=k): item[...] = ...` -/
def applyTriplets (k : Nat) (ts : List (String × String × String)) (d : Item) : Item :=
  match ts with
  | [] => d
  | (nm, unit, val) :: rest =>
    applyTriplets (k + 1) rest
      (dset (dset (dset d (nameCol k) (Cell.s nm)) (unitCol k) (Cell.s unit))
        (valCol k) (Cell.s val))

/-! ## ElementTree serialization

The trees this program builds have a fixed shape:
`yml_catalog / shop / offers / offer* / leaf*`, where every leaf carries
only attributes and text.  The embedding mirrors that shape and the
serializer mirrors `xml.etree.ElementTree.tostring` on it: text escapes
`&`, `<`, `>`; attribute values additionally escape `"`; an element with
no text and no children is written `<tag />`.  `tostring(..., encoding="utf-8")`
emits no XML declaration for the utf-8 encoding; the declaration seen in
the output is the one the source prepends by hand. -/

/-- `xml.sax.saxutils`-style text escaping performed by `ET.tostring`
(ampersand first, exactly as `_escape_cdata` does). -/
def etEscapeText (v : String) : String :=
  pyReplaceChar (pyReplaceChar (pyReplaceChar v '&' "&amp;") '<' "&lt;") '>' "&gt;"

/-- Attribute-value escaping performed by `ET.tostring` (the control
characters CPython additionally rewrites never occur in this program's
attribute values). -/
def etEscapeAttrib (v : String) : String :=
  pyReplaceChar (etEscapeText v) '"' "&quot;"

/-- A leaf element: tag, attributes in insertion order, text (`""` = no
text, exactly how ElementTree treats an unset/empty `.text`). -/
structure Leaf where
  tag : String
  attrs : List (String × String)
  text : String
deriving DecidableEq

/-- An `offer` element: its attributes and its leaf children. -/
structure Offer where
  attrs : List (String × String)
  children : List Leaf
deriving DecidableEq

/-- ` k="v"` attribute rendering. -/
def renderAttrs (attrs : List (String × String)) : String :=
  (attrs.map (fun kv => " " ++ kv.1 ++ "=\"" ++ etEscapeAttrib kv.2 ++ "\"")).foldl (· ++ ·) ""

/-- Serialize one leaf as ElementTree does. -/
def serializeLeaf (l : Leaf) : String :=
  if l.text = "" then "<" ++ l.tag ++ renderAttrs l.attrs ++ " />"
  else "<" ++ l.tag ++ renderAttrs l.attrs ++ ">" ++ etEscapeText l.text ++ "</" ++ l.tag ++ ">"

/-- Serialize one offer (always has children in this program, but the
empty case is kept faithful to ElementTree). -/
def serializeOffer (o : Offer) : String :=
  if o.children.isEmpty then "<offer" ++ renderAttrs o.attrs ++ " />"
  else "<offer" ++ renderAttrs o.attrs ++ ">"
    ++ (o.children.map serializeLeaf).foldl (· ++ ·) "" ++ "</offer>"

/-- `<tag>inner</tag>`, or `<tag />` when empty — the attribute-free
wrapper levels of the document. -/
def wrapElem (tag inner : String) : String :=
  if inner = "" then "<" ++ tag ++ " />"
  else "<" ++ tag ++ ">" ++ inner ++ "</" ++ tag ++ ">"

/-- The whole document as the source builds it:
`'<?xml version="1.0" encoding="UTF-8"?>\n' + ET.tostring(yml, encoding='utf-8').decode()`. -/
def serializeDoc (offers : List Offer) : String :=
  "<?xml version=\"1.0\" encoding=\"UTF-8\"?>\n"
    ++ wrapElem "yml_catalog" (wrapElem "shop"
        (wrapElem "offers" ((offers.map serializeOffer).foldl (· ++ ·) "")))

/-- `CURRENCY = "UAH"` (identical in all three sources). -/
def CURRENCY : String := "UAH"

/-- Python `pick_price(r) or ''` as written by every tabular exporter:
`None` and the float `0.0` are falsy, so both yield the empty string. -/
def priceCell : Option Rat → Cell
  | some q => if q ≠ 0 then Cell.num q else Cell.s ""
  | none => Cell.s ""

/-- The piece collection of `build_image_list` before deduplication:
values of the photo alias columns, comma-split, stripped, empties dropped. -/
def imagePieces (photos : List String) (r : Row) : List String :=
  (photos.map (fun col =>
    if rowHas r col && (rowGet r col Cell.na).notna then
      ((pySplitComma (pyStr (rowGet r col Cell.na))).map pyStrip).filter (fun p => p ≠ "")
    else [])).flatten

/-- `list(dict.fromkeys(urls))`: first-seen-order deduplication (Python
dicts preserve insertion order; `seen` accumulates emitted keys). -/
def dedupFirstAux : List String → List String → List String
  | [], _ => []
  | x :: xs, seen =>
    if x ∈ seen then dedupFirstAux xs seen else x :: dedupFirstAux xs (x :: seen)

/-- `list(dict.fromkeys(urls))`. -/
def dedupFirst (l : List String) : List String := dedupFirstAux l []

namespace B10

/-- `SRC` of bot_1_0.py (only the keys the modelled functions read; the
`category`/`weight`/`length`/`width`/`height` alias lists are never used by
`merge_ru_ua`, `to_prom_excel` or `to_prom_yml` in that file). -/
def SRC_id : List String := ["product code", "main sku", "код", "артикул"]

def SRC_name : List String := ["name", "назва", "название"]

def SRC_qty : List String := ["quantity", "кількість", "количество"]

def SRC_price : List String := ["special price", "price", "ціна", "цена"]

def SRC_description : List String := ["description", "опис", "описание"]

def SRC_photos : List String :=
  ["main photo", "photo1", "photo2", "photo3", "photo4", "photo5",
   "photo6", "photo7", "photo8", "photo 9", "photo 10", "photo 11", "photo 12",
   "посилання_зображення", "изображение"]

def SRC_params : List (String × String) :=
  [("size of the set", "Розмір комплекту"),
   ("size extra", "Додатковий розмір"),
   ("sheet size", "Розмір простирадла"),
   ("size of the pillowcase", "Розмір наволочки"),
   ("dimensions of the duvet cover", "Розмір підковдри"),
   ("fabric type", "Тип тканини"),
   ("composition", "Склад"),
   ("density", "Щільність"),
   ("color", "Колір"),
   ("country of manufacture", "Країна виробник"),
   ("brand registration country", "Країна реєстрації бренду"),
   ("producer", "Виробник"),
   ("sheet", "Простирадло"),
   ("pillowcase", "Наволочка"),
   ("a feature of pillowcases", "Особливість наволочок"),
   ("sheet with elastic band", "Простирадло на резинці"),
   ("gift packaging", "Подарункова упаковка"),
   ("available layout options", "Доступні комплектації"),
   ("fabrics \"a\" (top of the quilt)", "Тканина A (верх ковдри)"),
   ("fabrics \"b\" (bed sheet)", "Тканина B (простирадло)"),
   ("bonus", "Бонус")]

/-- `PROM_XLS_COLS` of bot_1_0.py: 13 header columns plus 15 triplet
column groups. -/
def PROM_XLS_COLS : List String :=
  ["Код_товару", "Назва_позиції", "Назва_позиції_укр", "Опис", "Опис_укр",
   "Ціна", "Валюта", "Кількість", "Посилання_зображення",
   "Вага,кг", "Ширина,см", "Висота,см", "Довжина,см"]
  ++ ((List.range 15).map (fun i => [nameCol (i + 1), unitCol (i + 1), valCol (i + 1)])).flatten

/-- `pick_price` of bot_1_0.py: the `except ValueError` clause only logs,
so a present-but-unparseable value FALLS THROUGH to the next alias. -/
def pickPriceAux (cands : List String) (r : Row) : Option Rat :=
  match cands with
  | [] => none
  | c :: rest =>
    if rowHas r c && (rowGet r c Cell.na).notna then
      match pyFloat (pyStrip (pyReplaceChar (pyStr (rowGet r c Cell.na)) ',' ".")) with
      | some v => some v
      | none => pickPriceAux rest r
    else pickPriceAux rest r

/-- `pick_price` of bot_1_0.py. -/
def pick_price (r : Row) : Option Rat := pickPriceAux SRC_price r

/-- `build_image_list` of bot_1_0.py (the second, shadowing definition at
lines 136–146; its collection logic is identical to the first). -/
def build_image_list (r : Row) : List String :=
  (dedupFirst (imagePieces SRC_photos r)).take 10

/-- `merge_ru_ua` of bot_1_0.py.  When an id column resolves in neither
table (or in only one), it logs `"[ERROR] Не найдены идентификаторы..."`
and RETURNS the (normalized) base table unchanged — no typed error, no
abort.  Column lookups on resolved-or-fallback names can still raise
pandas `KeyError`, modelled as `Except.error`. -/
def merge_ru_ua (dfRu dfUa : Table) : Except String Table :=
  let dfRu := normalize_df dfRu
  let dfUa := normalize_df dfUa
  match find_first_col dfRu SRC_id, find_first_col dfUa SRC_id with
  | some colIdRu, some colIdUa => do
    let colNameRu := (find_first_col dfRu SRC_name).getD "название"
    let colNameUa := (find_first_col dfUa SRC_name).getD "назва"
    let colDescrRu := (find_first_col dfRu SRC_description).getD "описание"
    let colDescrUa := (find_first_col dfUa SRC_description).getD "опис"
    let dfRu ← addStrippedCol dfRu "_id" colIdRu
    let dfUa ← addStrippedCol dfUa "_id" colIdUa
    let ua ← selectCols dfUa ["_id", colNameUa, colDescrUa]
    let ua := renameCol (renameCol ua colNameUa "Назва_позиції_укр") colDescrUa "Опис_укр"
    let merged := leftJoin dfRu ua "_id"
    let merged ← addStrCol merged "Назва_позиції" colNameRu
    let merged ← addStrCol merged "Опис" colDescrRu
    .ok merged
  | _, _ => .ok dfRu

/-- The loop body of bot_1_0's `to_prom_excel` for one row with nonempty
trimmed id `pid`: note `item["Код_товару"] = pid[:25]` (truncation) and the
`triplets[:15]` cap. -/
def excelItem (pid : String) (colQty : String) (r : Row) : Item :=
  let item := initItem PROM_XLS_COLS
  let item := dset item "Код_товару" (Cell.s (strTake 25 pid))
  let item := dset item "Назва_позиції" (rowGet r "Назва_позиції" (Cell.s ""))
  let item := dset item "Назва_позиції_укр" (rowGet r "Назва_позиції_укр" (Cell.s ""))
  let item := dset item "Опис" (rowGet r "Опис" (Cell.s ""))
  let item := dset item "Опис_укр" (rowGet r "Опис_укр" (Cell.s ""))
  let item := dset item "Ціна" (priceCell (pick_price r))
  let item := dset item "Валюта" (Cell.s CURRENCY)
  let item := dset item "Кількість" (rowGet r colQty (Cell.s ""))
  let item := dset item "Посилання_зображення" (Cell.s (joinSep ", " (build_image_list r)))
  applyTriplets 1 ((eligibleTriplets SRC_params r).take 15) item

/-- `to_prom_excel` of bot_1_0.py: rows whose trimmed id is empty are
SKIPPED (`if not pid: continue`). -/
def to_prom_excel (df : Table) : List Item :=
  let colId := (find_first_col df SRC_id).getD "код"
  let colQty := (find_first_col df SRC_qty).getD "quantity"
  df.rows.filterMap (fun r =>
    let pid := pyStrip (pyStr (rowGet r colId (Cell.s "")))
    if pid = "" then none else some (excelItem pid colQty r))

/-- One `<offer>` of bot_1_0's `to_prom_yml`: name/description children are
ALWAYS emitted (possibly empty), the price child only when the price is
truthy (`if price:`), texts are stored raw and escaped once by the
serializer. -/
def offerNode (colQty : String) (r : Row) (baseId : String) : Offer :=
  let price := pick_price r
  let qty := rowGet r colQty Cell.na
  { attrs := [("id", baseId), ("available", "true")],
    children :=
      [Leaf.mk "name" [] (pyStr (rowGet r "Назва_позиції" (Cell.s ""))),
       Leaf.mk "name_ua" [] (pyStr (rowGet r "Назва_позиції_укр" (Cell.s ""))),
       Leaf.mk "description" [] (pyStr (rowGet r "Опис" (Cell.s ""))),
       Leaf.mk "description_ua" [] (pyStr (rowGet r "Опис_укр" (Cell.s "")))]
      ++ (match price with
          | some q => if q ≠ 0 then [Leaf.mk "price" [] (pyFloatRepr q)] else []
          | none => [])
      ++ [Leaf.mk "currencyId" [] CURRENCY]
      ++ (if qty.notna then [Leaf.mk "quantity_in_stock" [] (pyStr qty)] else [])
      ++ (build_image_list r).map (fun url => Leaf.mk "picture" [] url) }

/-- The offer list of bot_1_0's `to_prom_yml` (empty trimmed ids skipped). -/
def offersOf (df : Table) : List Offer :=
  let colId := (find_first_col df SRC_id).getD "код"
  let colQty := (find_first_col df SRC_qty).getD "quantity"
  df.rows.filterMap (fun r =>
    let baseId := pyStrip (pyStr (rowGet r colId (Cell.s "")))
    if baseId = "" then none else some (offerNode colQty r baseId))

/-- `to_prom_yml` of bot_1_0.py. -/
def to_prom_yml (df : Table) : String := serializeDoc (offersOf df)

end B10

namespace B11

/-- `SRC` of bot_1_1.py. -/
def SRC_id : List String := ["product code", "main sku", "код", "артикул"]

def SRC_name : List String := ["name", "назва", "название"]

def SRC_qty : List String := ["quantity", "кількість", "количество"]

def SRC_price : List String := ["special price", "price", "ціна", "цена"]

def SRC_description : List String := ["description", "опис", "описание"]

def SRC_photos : List String :=
  ["main photo", "photo1", "photo2", "photo3", "photo4",
   "photo5", "photo6", "photo7", "photo8", "photo9", "photo10",
   "посилання_зображення", "изображение"]

def SRC_params : List (String × String) :=
  [("size of the set", "Розмір комплекту"),
   ("size extra", "Додатковий розмір"),
   ("sheet size", "Розмір простирадла"),
   ("size of the pillowcase", "Розмір наволочки"),
   ("dimensions of the duvet cover", "Розмір підковдри"),
   ("fabric type", "Тип тканини"),
   ("composition", "Склад"),
   ("density", "Щільність"),
   ("color", "Колір"),
   ("country of manufacture", "Країна виробник"),
   ("brand registration country", "Країна реєстрації бренду"),
   ("producer", "Виробник"),
   ("sheet", "Простирадло"),
   ("pillowcase", "Наволочка"),
   ("a feature of pillowcases", "Особливість наволочок"),
   ("sheet with elastic band", "Простирадло на резинці"),
   ("gift packaging", "Подарункова упаковка"),
   ("available layout options", "Доступні комплектації"),
   ("fabrics \"a\" (top of the quilt)", "Тканина A (верх ковдри)"),
   ("fabrics \"b\" (bed sheet)", "Тканина B (простирадло)"),
   ("bonus", "Бонус")]

/-- `PROM_XLS_COLS` of bot_1_1.py: 9 header columns plus 20 triplet column
groups. -/
def PROM_XLS_COLS : List String :=
  ["Код_товару", "Назва_позиції", "Назва_позиції_укр", "Опис", "Опис_укр",
   "Ціна", "Валюта", "Кількість", "Посилання_зображення"]
  ++ ((List.range 20).map (fun i => [nameCol (i + 1), unitCol (i + 1), valCol (i + 1)])).flatten

/-- `pick_price` of bot_1_1.py: `except Exception: return None` — the FIRST
present non-NA alias governs; a parse failure returns `None` immediately and
later aliases are never consulted. -/
def pickPriceAux (cands : List String) (r : Row) : Option Rat :=
  match cands with
  | [] => none
  | c :: rest =>
    if rowHas r c && (rowGet r c Cell.na).notna then
      pyFloat (pyStrip (pyReplaceChar (pyStr (rowGet r c Cell.na)) ',' "."))
    else pickPriceAux rest r

/-- `pick_price` of bot_1_1.py. -/
def pick_price (r : Row) : Option Rat := pickPriceAux SRC_price r

/-- `build_image_list` of bot_1_1.py. -/
def build_image_list (r : Row) : List String :=
  (dedupFirst (imagePieces SRC_photos r)).take 10

/-- `xml_safe` of bot_1_1's `to_prom_yml`:
`str(val).replace('&','&amp;').replace('<','&lt;').replace('>','&gt;')`. -/
def xml_safe (c : Cell) : String :=
  pyReplaceChar (pyReplaceChar (pyReplaceChar (pyStr c) '&' "&amp;") '<' "&lt;") '>' "&gt;"

/-- `merge_ru_ua` of bot_1_1.py.  Unresolvable id/name columns fall back to
`or "код"` / `or "название"` / `or "назва"`; when the fallback is not an
actual column the subsequent indexing raises a plain pandas `KeyError`
(modelled as a generic `Except.error`) — there is no typed merge error. -/
def merge_ru_ua (dfRu dfUa : Table) : Except String Table := do
  let dfRu := normalize_df dfRu
  let dfUa := normalize_df dfUa
  let colIdRu := (find_first_col dfRu SRC_id).getD "код"
  let colIdUa := (find_first_col dfUa SRC_id).getD "код"
  let colNameRu := (find_first_col dfRu SRC_name).getD "название"
  let colNameUa := (find_first_col dfUa SRC_name).getD "назва"
  let dfRu ← addStrippedCol dfRu "_id" colIdRu
  let dfUa ← addStrippedCol dfUa "_id" colIdUa
  let ua ← selectCols dfUa ["_id", colNameUa]
  let ua := renameCol ua colNameUa "Назва_позиції_укр"
  let merged := leftJoin dfRu ua "_id"
  let merged ← addStrCol merged "Назва_позиції" colNameRu
  let merged := tableSetCol merged "Код_товару" (fun r => rowGet r "_id" Cell.na)
  .ok merged

/-- The loop body of bot_1_1's `to_prom_excel`: NO empty-id skip, NO id
truncation, and the triplet loop has NO `[:15]`/`[:20]` cap — every
eligible triplet is written, even past the 20 groups of the schema. -/
def excelItem (colQty : String) (r : Row) : Item :=
  let item := initItem PROM_XLS_COLS
  let item := dset item "Код_товару" (rowGet r "Код_товару" (Cell.s ""))
  let item := dset item "Назва_позиції" (rowGet r "Назва_позиції" (Cell.s ""))
  let item := dset item "Назва_позиції_укр" (rowGet r "Назва_позиції_укр" (Cell.s ""))
  let item := dset item "Ціна" (priceCell (pick_price r))
  let item := dset item "Валюта" (Cell.s CURRENCY)
  let item := dset item "Кількість" (rowGet r colQty (Cell.s ""))
  let item := dset item "Посилання_зображення" (Cell.s (joinSep ", " (build_image_list r)))
  applyTriplets 1 (eligibleTriplets SRC_params r) item

/-- `to_prom_excel` of bot_1_1.py: one output row per input row,
unconditionally. -/
def to_prom_excel (df : Table) : List Item :=
  let colQty := (find_first_col df SRC_qty).getD "quantity"
  df.rows.map (excelItem colQty)

/-- One `<offer>` of bot_1_1's `to_prom_yml`.  Texts pass through
`xml_safe` BEFORE being stored on the tree, and `ET.tostring` escapes them
again at serialization time.  `if name_ua:` is Python truthiness: a NaN
(float) cell is truthy and `xml_safe(nan)` is the string `"nan"`. -/
def offerNode (colQty : String) (r : Row) (baseId : String) : Offer :=
  let name := rowGet r "Назва_позиції" (Cell.s "")
  let nameUa := rowGet r "Назва_позиції_укр" (Cell.s "")
  let price := pick_price r
  let qty := rowGet r colQty Cell.na
  let images := build_image_list r
  { attrs := [("id", baseId), ("available", "true")],
    children :=
      (if name.truthy then [Leaf.mk "name" [] (xml_safe name)] else [])
      ++ (if nameUa.truthy then [Leaf.mk "name_ua" [] (xml_safe nameUa)] else [])
      ++ (match price with
          | some q => [Leaf.mk "price" [] (pyFloatRepr q)]
          | none => [])
      ++ [Leaf.mk "currencyId" [] CURRENCY]
      ++ (if qty.notna then [Leaf.mk "quantity_in_stock" [] (pyStr qty)] else [])
      ++ images.map (fun url => Leaf.mk "picture" [] (xml_safe (Cell.s url)))
      ++ (eligibleTriplets SRC_params r).map (fun t =>
            Leaf.mk "param" [("name", t.1)] (xml_safe (Cell.s t.2.2))) }

/-- The offer list of bot_1_1's `to_prom_yml` (rows with empty trimmed
`Код_товару` are skipped by `if not base_id: continue`). -/
def offersOf (df : Table) : List Offer :=
  let colQty := (find_first_col df SRC_qty).getD "quantity"
  df.rows.filterMap (fun r =>
    let baseId := pyStrip (pyStr (rowGet r "Код_товару" (Cell.s "")))
    if baseId = "" then none else some (offerNode colQty r baseId))

/-- `to_prom_yml` of bot_1_1.py. -/
def to_prom_yml (df : Table) : String := serializeDoc (offersOf df)

/-- The merge-then-tree-export path of the bot's file handler. -/
def pipelineYml (dfRu dfUa : Table) : Except String String :=
  (merge_ru_ua dfRu dfUa).map to_prom_yml

/-- The merge-then-tabular-export path of the bot's file handler. -/
def pipelineXlsx (dfRu dfUa : Table) : Except String (List Item) :=
  (merge_ru_ua dfRu dfUa).map to_prom_excel

/-- `to_prom_yml` applied to the merge result, with the handler's
`except`-branch collapsed to the error text (total, for concrete runs). -/
def runYml (dfRu dfUa : Table) : String :=
  match merge_ru_ua dfRu dfUa with
  | .ok m => to_prom_yml m
  | .error e => e

end B11

namespace B12

/-- `SRC` of bot_1_2.py (id/name/qty/price/photos identical to bot_1_1;
several canonical attribute labels differ). -/
def SRC_id : List String := ["product code", "main sku", "код", "артикул"]

def SRC_name : List String := ["name", "назва", "название"]

def SRC_qty : List String := ["quantity", "кількість", "количество"]

def SRC_price : List String := ["special price", "price", "ціна", "цена"]

def SRC_photos : List String :=
  ["main photo", "photo1", "photo2", "photo3", "photo4",
   "photo5", "photo6", "photo7", "photo8", "photo9", "photo10",
   "посилання_зображення", "изображение"]

def SRC_params : List (String × String) :=
  [("size of the set", "Тип комплекта"),
   ("size extra", "Додатковий розмір"),
   ("sheet size", "Розмір простирадла"),
   ("size of the pillowcase", "Розмір наволочки"),
   ("dimensions of the duvet cover", "Розмір підковдри"),
   ("fabric type", "Тип тканини"),
   ("composition", "Склад"),
   ("density", "Щільність"),
   ("color", "Цв"),
   ("country of manufacture", "Страна производитель"),
   ("brand registration country", "Країна реєстрації бренду"),
   ("producer", "Производитель"),
   ("sheet", "Простирадло"),
   ("pillowcase", "Наволочка"),
   ("a feature of pillowcases", "Особливість наволочок"),
   ("sheet with elastic band", "Простирадло на резинці"),
   ("gift packaging", "Подарункова упаковка"),
   ("available layout options", "Доступні комплектації"),
   ("fabrics \"a\" (top of the quilt)", "Тканина A (верх ковдри)"),
   ("fabrics \"b\" (bed sheet)", "Тканина B (простирадло)"),
   ("bonus", "Бонус")]

/-- `PROM_XLS_COLS` of bot_1_2.py: 10 header columns (with `Ключові_фрази`)
plus 20 triplet column groups. -/
def PROM_XLS_COLS : List String :=
  ["Код_товару", "Назва_позиції", "Назва_позиції_укр", "Опис", "Опис_укр",
   "Ціна", "Валюта", "Кількість", "Посилання_зображення", "Ключові_фрази"]
  ++ ((List.range 20).map (fun i => [nameCol (i + 1), unitCol (i + 1), valCol (i + 1)])).flatten

/-- `pick_price` of bot_1_2.py (identical to bot_1_1's). -/
def pick_price (r : Row) : Option Rat := B11.pickPriceAux SRC_price r

/-- `build_image_list` of bot_1_2.py (identical to bot_1_1's). -/
def build_image_list (r : Row) : List String :=
  (dedupFirst (imagePieces SRC_photos r)).take 10

/-- The loop body of bot_1_2's `to_prom_excel`: `Код_товару` is the raw
`r.get('Код_товару', '')` — neither trimmed nor truncated here — and the
triplet loop is uncapped.  `keyRequests` models the `key_requests` argument
(`None`/empty list falsy ⇒ no `Ключові_фрази` assignment). -/
def excelItem (colQty : String) (keyRequests : List String) (r : Row) : Item :=
  let item := initItem PROM_XLS_COLS
  let item := dset item "Код_товару" (rowGet r "Код_товару" (Cell.s ""))
  let item := dset item "Назва_позиції" (rowGet r "Назва_позиції" (Cell.s ""))
  let item := dset item "Назва_позиції_укр" (rowGet r "Назва_позиції_укр" (Cell.s ""))
  let item := dset item "Опис" (rowGet r "Опис" (Cell.s ""))
  let item := dset item "Опис_укр" (rowGet r "Опис_укр" (Cell.s ""))
  let item := dset item "Ціна" (priceCell (pick_price r))
  let item := dset item "Валюта" (Cell.s CURRENCY)
  let item := dset item "Кількість" (rowGet r colQty (Cell.s ""))
  let item := dset item "Посилання_зображення" (Cell.s (joinSep ", " (build_image_list r)))
  let item := if keyRequests ≠ [] then
      dset item "Ключові_фрази" (Cell.s (joinSep ", " keyRequests))
    else item
  applyTriplets 1 (eligibleTriplets SRC_params r) item

/-- `to_prom_excel` of bot_1_2.py: one output row per input row,
unconditionally. -/
def to_prom_excel (df : Table) (keyRequests : List String) : List Item :=
  let colQty := (find_first_col df SRC_qty).getD "quantity"
  df.rows.map (excelItem colQty keyRequests)

end B12

/-! ## Generic lemmas about the string and list primitives -/

theorem dropWhile_append_singleton {p : Char → Bool} {c : Char} (h : p c = false)
    (l : List Char) : List.dropWhile p (l ++ [c]) = List.dropWhile p l ++ [c] := by
  induction l with
  | nil => simp [List.dropWhile_cons, h]
  | cons a t ih =>
    by_cases ha : p a
    · simp [List.dropWhile_cons, ha, ih]
    · simp [List.dropWhile_cons, ha]

theorem ltrim_head_false : ∀ {l : List Char} {c : Char} {cs : List Char},
    ltrimChars l = c :: cs → isPySpace c = false := by
  intro l
  induction l with
  | nil => intro c cs h; simp [ltrimChars] at h
  | cons a t ih =>
    intro c cs h
    by_cases ha : isPySpace a
    · exact ih (by simpa [ltrimChars, List.dropWhile_cons, ha] using h)
    · rw [ltrimChars, List.dropWhile_cons, if_neg (by simp [ha])] at h
      cases h
      simpa using ha

theorem ltrim_cons_false {c : Char} {cs : List Char} (h : isPySpace c = false) :
    ltrimChars (c :: cs) = c :: cs := by
  simp [ltrimChars, List.dropWhile_cons, h]

theorem ltrim_idem (l : List Char) : ltrimChars (ltrimChars l) = ltrimChars l := by
  rcases hl : ltrimChars l with _ | ⟨c, cs⟩
  · simp [ltrimChars]
  · exact ltrim_cons_false (ltrim_head_false hl)

theorem rtrim_nil : rtrimChars [] = [] := rfl

theorem rtrim_cons_false {c : Char} {cs : List Char} (h : isPySpace c = false) :
    rtrimChars (c :: cs) = c :: rtrimChars cs := by
  unfold rtrimChars
  rw [List.reverse_cons]
  unfold ltrimChars
  rw [dropWhile_append_singleton h]
  simp [ltrimChars]

theorem rtrim_idem (l : List Char) : rtrimChars (rtrimChars l) = rtrimChars l := by
  unfold rtrimChars
  rw [List.reverse_reverse, ltrim_idem]

theorem stripChars_idem (l : List Char) :
    rtrimChars (ltrimChars (rtrimChars (ltrimChars l))) = rtrimChars (ltrimChars l) := by
  rcases h : ltrimChars l with _ | ⟨c, cs⟩
  · simp [ltrimChars, rtrim_nil]
  · have hc := ltrim_head_false h
    rw [rtrim_cons_false hc, ltrim_cons_false hc, rtrim_cons_false hc, rtrim_idem]

/-- Python `strip` is idempotent — every element the photo extractor emits
is already stripped. -/
theorem pyStrip_idem (v : String) : pyStrip (pyStrip v) = pyStrip v :=
  congrArg String.mk (stripChars_idem v.data)

theorem dedupFirstAux_sublist : ∀ (l seen : List String),
    (dedupFirstAux l seen).Sublist l := by
  intro l
  induction l with
  | nil => intro seen; simp [dedupFirstAux]
  | cons x xs ih =>
    intro seen
    by_cases h : x ∈ seen
    · simpa [dedupFirstAux, h] using (ih seen).cons x
    · simpa [dedupFirstAux, h] using (ih (x :: seen)).cons₂ x

theorem not_mem_seen_of_mem_dedupFirstAux : ∀ (l seen : List String) (x : String),
    x ∈ dedupFirstAux l seen → x ∉ seen := by
  intro l
  induction l with
  | nil => intro seen x h; simp [dedupFirstAux] at h
  | cons y ys ih =>
    intro seen x h
    by_cases hy : y ∈ seen
    · exact ih seen x (by simpa [dedupFirstAux, hy] using h)
    · rw [dedupFirstAux, if_neg hy] at h
      rcases List.mem_cons.mp h with rfl | h2
      · exact hy
      · intro hx
        exact ih (y :: seen) x h2 (List.mem_cons_of_mem y hx)

theorem dedupFirstAux_nodup : ∀ (l seen : List String), (dedupFirstAux l seen).Nodup := by
  intro l
  induction l with
  | nil => intro seen; simp [dedupFirstAux]
  | cons y ys ih =>
    intro seen
    by_cases hy : y ∈ seen
    · simpa [dedupFirstAux, hy] using ih seen
    · rw [dedupFirstAux, if_neg hy]
      exact List.nodup_cons.mpr
        ⟨fun hmem => not_mem_seen_of_mem_dedupFirstAux ys (y :: seen) y hmem
            (List.mem_cons_self y seen),
         ih (y :: seen)⟩

theorem dedupFirst_nodup (l : List String) : (dedupFirst l).Nodup :=
  dedupFirstAux_nodup l []

theorem dedupFirst_sublist (l : List String) : (dedupFirst l).Sublist l :=
  dedupFirstAux_sublist l []

/-- Every piece collected by the photo extractor is nonempty and already
stripped. -/
theorem mem_imagePieces {photos : List String} {r : Row} {u : String}
    (h : u ∈ imagePieces photos r) : u ≠ "" ∧ pyStrip u = u := by
  unfold imagePieces at h
  rw [List.mem_flatten] at h
  obtain ⟨l, hl, hu⟩ := h
  rw [List.mem_map] at hl
  obtain ⟨col, -, rfl⟩ := hl
  by_cases hc : (rowHas r col && (rowGet r col Cell.na).notna) = true
  · rw [if_pos hc] at hu
    rw [List.mem_filter] at hu
    obtain ⟨humem, hune⟩ := hu
    rw [List.mem_map] at humem
    obtain ⟨p, -, rfl⟩ := humem
    exact ⟨by simpa using hune, pyStrip_idem p⟩
  · rw [if_neg hc] at hu
    simp at hu

/-- The shared shape of `build_image_list`: ≤ 10 entries, no duplicates,
a subsequence (hence first-seen order) of the raw stripped pieces, and
every entry nonempty and stripped. -/
theorem build_images_spec (photos : List String) (r : Row) :
    ((dedupFirst (imagePieces photos r)).take 10).Nodup
    ∧ ((dedupFirst (imagePieces photos r)).take 10).length ≤ 10
    ∧ ((dedupFirst (imagePieces photos r)).take 10).Sublist (imagePieces photos r)
    ∧ ∀ u ∈ (dedupFirst (imagePieces photos r)).take 10, u ≠ "" ∧ pyStrip u = u := by
  have hsub : ((dedupFirst (imagePieces photos r)).take 10).Sublist (imagePieces photos r) :=
    (List.take_sublist 10 _).trans (dedupFirst_sublist _)
  refine ⟨(List.take_sublist 10 _).nodup (dedupFirst_nodup _), List.length_take_le 10 _,
    hsub, ?_⟩
  intro u hu
  exact mem_imagePieces (hsub.mem hu)

/-- C7: for every row, the photo list of `build_image_list` (bot_1_1 and
bot_1_0 alike) has length ≤ 10, no duplicate URL, is a subsequence of the
stripped comma-split pieces taken in photo-alias order (so first-seen
insertion order is preserved), and each entry is a nonempty trimmed piece. -/
theorem claim_C7_build_image_list (r : Row) :
    ((B11.build_image_list r).Nodup
      ∧ (B11.build_image_list r).length ≤ 10
      ∧ (B11.build_image_list r).Sublist (imagePieces B11.SRC_photos r)
      ∧ ∀ u ∈ B11.build_image_list r, u ≠ "" ∧ pyStrip u = u)
    ∧ ((B10.build_image_list r).Nodup
      ∧ (B10.build_image_list r).length ≤ 10
      ∧ (B10.build_image_list r).Sublist (imagePieces B10.SRC_photos r)
      ∧ ∀ u ∈ B10.build_image_list r, u ≠ "" ∧ pyStrip u = u) :=
  ⟨build_images_spec B11.SRC_photos r, build_images_spec B10.SRC_photos r⟩

/-- A row with duplicate and padded photo pieces across two alias columns. -/
def exC7_row : Row := [("main photo", Cell.s " u1 , u2,,u1 "), ("photo1", Cell.s "u2, u3")]

/-- Witness for C7 at a concrete row (the list evaluates to
`["u1", "u2", "u3"]`). -/
theorem claim_C7_build_image_list_witness :
    (B11.build_image_list exC7_row).Nodup ∧ "u1" ≠ "" ∧ pyStrip "u1" = "u1" :=
  ⟨(claim_C7_build_image_list exC7_row).1.1,
   (claim_C7_build_image_list exC7_row).1.2.2.2 "u1" (by decide)⟩

/-- A merged-style table whose single record's name holds the three
reserved markup characters — the escaping example of the specification. -/
def exC1_merged : Table :=
  ⟨["Код_товару", "Назва_позиції"],
   [[("Код_товару", Cell.s "X1"), ("Назва_позиції", Cell.s "A & B <C>")]]⟩

/-- The same record keyed the way bot_1_0's `to_prom_yml` resolves ids
(bot_1_0 reads the id from the raw alias column, not from `Код_товару`). -/
def exC1_merged10 : Table :=
  ⟨["product code", "Назва_позиції"],
   [[("product code", Cell.s "X1"), ("Назва_позиції", Cell.s "A & B <C>")]]⟩

/-- C1: bot_1_1's tree exporter escapes twice — `xml_safe` rewrites the
name to `A &amp; B &lt;C&gt;` and `ET.tostring` then escapes the inserted
ampersands again, so the serialized document carries
`A &amp;amp; B &amp;lt;C&amp;gt;` and NOT the once-escaped form the
specification requires; bot_1_0 (no `xml_safe`) produces exactly the
once-escaped form and never the raw text. -/
theorem claim_C1_escaping_eval :
    containsSub (B11.to_prom_yml exC1_merged) "A &amp;amp; B &amp;lt;C&amp;gt;" = true
    ∧ containsSub (B11.to_prom_yml exC1_merged) "A &amp; B &lt;C&gt;" = false
    ∧ containsSub (B10.to_prom_yml exC1_merged10) "A &amp; B &lt;C&gt;" = true
    ∧ containsSub (B10.to_prom_yml exC1_merged10) "A & B <C>" = false := by
  refine ⟨?_, ?_, ?_, ?_⟩ <;> decide

/-- Base table: one record with id `"42"` and no translation match. -/
def exC5_ru : Table :=
  ⟨["product code", "name"], [[("product code", Cell.s "42"), ("name", Cell.s "Bed")]]⟩

/-- Translation table: a single translation-only record with id `"99"`. -/
def exC5_ua : Table :=
  ⟨["product code", "name"], [[("product code", Cell.s "99"), ("name", Cell.s "L")]]⟩

/-- C5: after bot_1_1's left-join merge, the base row with id `"42"` and no
translation match does appear in the tree output, and the translation-only
row `"99"` contributes nothing — but the unmatched row's translated name is
the pandas missing value, which `if name_ua:` treats as truthy and
`xml_safe` stringifies, so the offer carries `<name_ua>nan</name_ua>`
rather than an empty/omitted translated name. -/
theorem claim_C5_left_join_eval :
    containsSub (B11.runYml exC5_ru exC5_ua) "<offer id=\"42\"" = true
    ∧ containsSub (B11.runYml exC5_ru exC5_ua) "<name_ua>nan</name_ua>" = true
    ∧ containsSub (B11.runYml exC5_ru exC5_ua) "99" = false := by
  refine ⟨?_, ?_, ?_⟩ <;> decide

/-! ## Price extraction policy (claim C3) -/

/-- Modelled from the spec's wording "first column that *has* a value
governs": the first price alias present with a non-NA value, as a raw
string.  Reference function for the refinement statements below. -/
def firstPresentPriceVal : List String → Row → Option String
  | [], _ => none
  | c :: rest, r =>
    if rowHas r c && (rowGet r c Cell.na).notna then some (pyStr (rowGet r c Cell.na))
    else firstPresentPriceVal rest r

/-- The per-value normalization and parse of `pick_price`:
`float(str(v).replace(",", ".").strip())`. -/
def parsePriceStr (v : String) : Option Rat := pyFloat (pyStrip (pyReplaceChar v ',' "."))

/-- All present non-NA price values, in alias order (reference function for
bot_1_0's fall-through policy). -/
def presentPriceVals (cands : List String) (r : Row) : List String :=
  cands.filterMap (fun c =>
    if rowHas r c && (rowGet r c Cell.na).notna then some (pyStr (rowGet r c Cell.na))
    else none)

theorem pickPriceAux11_eq (cands : List String) (r : Row) :
    B11.pickPriceAux cands r = (firstPresentPriceVal cands r).bind parsePriceStr := by
  induction cands with
  | nil => rfl
  | cons c rest ih =>
    by_cases h : (rowHas r c && (rowGet r c Cell.na).notna) = true
    · simp [B11.pickPriceAux, firstPresentPriceVal, h, parsePriceStr]
    · simp [B11.pickPriceAux, firstPresentPriceVal, h, ih]

theorem pickPriceAux10_eq (cands : List String) (r : Row) :
    B10.pickPriceAux cands r = ((presentPriceVals cands r).filterMap parsePriceStr).head? := by
  induction cands with
  | nil => rfl
  | cons c rest ih =>
    by_cases h : (rowHas r c && (rowGet r c Cell.na).notna) = true
    · have hv : presentPriceVals (c :: rest) r
          = pyStr (rowGet r c Cell.na) :: presentPriceVals rest r := by
        unfold presentPriceVals
        rw [List.filterMap_cons]
        simp [h]
      rcases hp : parsePriceStr (pyStr (rowGet r c Cell.na)) with _ | q
      · rw [hv, List.filterMap_cons, hp]
        have hp2 : pyFloat (pyStrip (pyReplaceChar (pyStr (rowGet r c Cell.na)) ',' "."))
            = none := hp
        simp only [B10.pickPriceAux, h, if_true, hp2]
        exact ih
      · rw [hv, List.filterMap_cons, hp]
        have hp2 : pyFloat (pyStrip (pyReplaceChar (pyStr (rowGet r c Cell.na)) ',' "."))
            = some q := hp
        simp only [B10.pickPriceAux, h, if_true, hp2, List.head?_cons]
    · have hv : presentPriceVals (c :: rest) r = presentPriceVals rest r := by
        unfold presentPriceVals
        rw [List.filterMap_cons]
        simp [h]
      rw [hv]
      simp only [B10.pickPriceAux, h, if_false, Bool.false_eq_true]
      exact ih

/-- C3 (amended): in bot_1_1 and bot_1_2 the FIRST price alias present with
a non-NA value governs — the result is exactly the parse of that single
value (absent when it fails; later aliases never back-fill, and an
unparseable value never yields zero); in bot_1_0 the `except ValueError`
only logs, so the result is the first value among all present aliases that
parses successfully (back-filling does happen there). -/
theorem claim_C3_price_policy (r : Row) :
    B11.pick_price r = (firstPresentPriceVal B11.SRC_price r).bind parsePriceStr
    ∧ B12.pick_price r = (firstPresentPriceVal B12.SRC_price r).bind parsePriceStr
    ∧ B10.pick_price r = ((presentPriceVals B10.SRC_price r).filterMap parsePriceStr).head? :=
  ⟨pickPriceAux11_eq B11.SRC_price r, pickPriceAux11_eq B12.SRC_price r,
   pickPriceAux10_eq B10.SRC_price r⟩

/-- A row whose first price alias (`special price`) holds an unparseable
value and whose second (`price`) holds `"5"`. -/
def exC3_row : Row := [("special price", Cell.s "abc"), ("price", Cell.s "5")]

/-- C3 counterexample: bot_1_0's `pick_price` back-fills from the second
alias after the first fails to parse — the claim (result absent, later
aliases never consulted) is false of bot_1_0; bot_1_1 behaves as claimed. -/
theorem claim_C3_counterexample :
    B10.pick_price exC3_row = some 5 ∧ B11.pick_price exC3_row = none := by
  refine ⟨?_, ?_⟩ <;> decide

/-! ## Triplet-column bookkeeping

The enumerated triplet columns are pairwise distinct and distinct from the
fixed header columns; the indices this program ever writes are `1..21`
(the attribute alias list has 21 entries), so all facts are decided on the
range `i < 22`. -/

set_option maxRecDepth 4000 in
theorem valCol_inj : ∀ i, i < 22 → ∀ j, j < 22 → (valCol i = valCol j ↔ i = j) := by decide

set_option maxRecDepth 4000 in
theorem tripletCols_cross_ne : ∀ i, i < 22 → ∀ j, j < 22 →
    nameCol i ≠ valCol j ∧ unitCol i ≠ valCol j ∧ nameCol i ≠ unitCol j := by decide

/-- The fixed (non-triplet) output column labels used by any of the three
exporters. -/
def headerKeys : List String :=
  ["Код_товару", "Назва_позиції", "Назва_позиції_укр", "Опис", "Опис_укр",
   "Ціна", "Валюта", "Кількість", "Посилання_зображення", "Ключові_фрази"]

set_option maxRecDepth 4000 in
theorem headerKeys_ne_tripletCols : ∀ K ∈ headerKeys, ∀ i, i < 22 →
    K ≠ nameCol i ∧ K ≠ unitCol i ∧ K ≠ valCol i := by decide

set_option maxRecDepth 4000 in
theorem valCol_mem_cols10 : ∀ i, i < 22 →
    (valCol i ∈ B10.PROM_XLS_COLS ↔ 1 ≤ i ∧ i ≤ 15) := by decide

set_option maxRecDepth 4000 in
theorem valCol_mem_cols11 : ∀ i, i < 22 →
    (valCol i ∈ B11.PROM_XLS_COLS ↔ 1 ≤ i ∧ i ≤ 20) := by decide

theorem eligibleTriplets_length_le (params : List (String × String)) (r : Row) :
    (eligibleTriplets params r).length ≤ params.length :=
  List.length_filterMap_le _ _

/-- A key that is no triplet column is untouched by the triplet loop. -/
theorem applyTriplets_ne (ts : List (String × String × String)) :
    ∀ (k : Nat) (d : Item) (key : String), k + ts.length ≤ 22 →
    (∀ i, i < 22 → key ≠ nameCol i ∧ key ≠ unitCol i ∧ key ≠ valCol i) →
    applyTriplets k ts d key = d key := by
  induction ts with
  | nil => intros; rfl
  | cons t rest ih =>
    intro k d key hb h
    simp only [applyTriplets]
    rw [ih (k + 1) _ key (by simp only [List.length_cons] at hb; omega) h]
    have hk : k < 22 := by simp only [List.length_cons] at hb; omega
    obtain ⟨h1, h2, h3⟩ := h k hk
    simp [dset, h1, h2, h3]

/-- The value written by the triplet loop at value-column `i`: the `i-k`-th
triplet when `i` falls in the written range, the underlying dictionary
otherwise. -/
theorem applyTriplets_val (ts : List (String × String × String)) :
    ∀ (k i : Nat) (d : Item), 1 ≤ k → k + ts.length ≤ 22 → i < 22 →
    applyTriplets k ts d (valCol i) =
      (if k ≤ i ∧ i < k + ts.length
       then (ts[i - k]?).map (fun t => Cell.s t.2.2)
       else d (valCol i)) := by
  induction ts with
  | nil =>
    intro k i d hk hb hi
    rw [applyTriplets, if_neg (by simp only [List.length_nil]; omega)]
  | cons t rest ih =>
    intro k i d hk hb hi
    simp only [applyTriplets]
    rw [ih (k + 1) i _ (by omega) (by simp only [List.length_cons] at hb; omega) hi]
    have hk22 : k < 22 := by simp only [List.length_cons] at hb; omega
    by_cases hik : i = k
    · subst hik
      rw [if_neg (by omega), if_pos ⟨le_refl i, by simp only [List.length_cons]; omega⟩]
      simp [dset]
    · by_cases hge : k + 1 ≤ i ∧ i < k + 1 + rest.length
      · rw [if_pos hge, if_pos (by simp only [List.length_cons]; omega)]
        have hsub : i - k = (i - (k + 1)) + 1 := by omega
        rw [hsub, List.getElem?_cons_succ]
      · rw [if_neg hge]
        have h1 : valCol i ≠ valCol k := fun h => hik ((valCol_inj i hi k hk22).mp h)
        have h2 : valCol i ≠ unitCol k := (tripletCols_cross_ne k hk22 i hi).2.1.symm
        have h3 : valCol i ≠ nameCol k := (tripletCols_cross_ne k hk22 i hi).1.symm
        rw [if_neg (by simp only [List.length_cons]; omega)]
        simp [dset, h1, h2, h3]

theorem B10_excelItem_valCol (pid colQty : String) (r : Row) (i : Nat)
    (h1 : 1 ≤ i) (h2 : i < 22) :
    B10.excelItem pid colQty r (valCol i) =
      (if i ≤ 15
       then some ((((eligibleTriplets B10.SRC_params r).take 15)[i - 1]?).elim (Cell.s "")
         (fun t => Cell.s t.2.2))
       else none) := by
  have hlen : ((eligibleTriplets B10.SRC_params r).take 15).length ≤ 15 :=
    List.length_take_le 15 _
  have hne : ∀ K ∈ headerKeys, valCol i ≠ K :=
    fun K hK => ((headerKeys_ne_tripletCols K hK i h2).2.2).symm
  simp only [B10.excelItem]
  rw [applyTriplets_val _ 1 i _ (le_refl 1) (by omega) h2]
  by_cases hin : 1 ≤ i ∧ i < 1 + ((eligibleTriplets B10.SRC_params r).take 15).length
  · rw [if_pos hin, if_pos (by omega)]
    have hlt : i - 1 < ((eligibleTriplets B10.SRC_params r).take 15).length := by omega
    rw [List.getElem?_eq_getElem hlt]
    rfl
  · rw [if_neg hin]
    have n1 : valCol i ≠ "Посилання_зображення" := hne _ (by decide)
    have n2 : valCol i ≠ "Кількість" := hne _ (by decide)
    have n3 : valCol i ≠ "Валюта" := hne _ (by decide)
    have n4 : valCol i ≠ "Ціна" := hne _ (by decide)
    have n5 : valCol i ≠ "Опис_укр" := hne _ (by decide)
    have n6 : valCol i ≠ "Опис" := hne _ (by decide)
    have n7 : valCol i ≠ "Назва_позиції_укр" := hne _ (by decide)
    have n8 : valCol i ≠ "Назва_позиції" := hne _ (by decide)
    have n9 : valCol i ≠ "Код_товару" := hne _ (by decide)
    simp only [dset, initItem, if_neg n1, if_neg n2, if_neg n3, if_neg n4, if_neg n5,
      if_neg n6, if_neg n7, if_neg n8, if_neg n9]
    by_cases hle : i ≤ 15
    · rw [if_pos ((valCol_mem_cols10 i h2).mpr ⟨h1, hle⟩), if_pos hle]
      have hge : ((eligibleTriplets B10.SRC_params r).take 15).length ≤ i - 1 := by omega
      rw [List.getElem?_eq_none hge]
      rfl
    · rw [if_neg (fun hmem => hle ((valCol_mem_cols10 i h2).mp hmem).2), if_neg hle]

theorem B11_excelItem_valCol (colQty : String) (r : Row) (i : Nat)
    (h1 : 1 ≤ i) (h2 : i < 22) :
    B11.excelItem colQty r (valCol i) =
      (if i ≤ (eligibleTriplets B11.SRC_params r).length
       then ((eligibleTriplets B11.SRC_params r)[i - 1]?).map (fun t => Cell.s t.2.2)
       else if i ≤ 20 then some (Cell.s "") else none) := by
  have hlen : (eligibleTriplets B11.SRC_params r).length ≤ 21 := by
    have h := eligibleTriplets_length_le B11.SRC_params r
    have h21 : B11.SRC_params.length = 21 := rfl
    omega
  have hne : ∀ K ∈ headerKeys, valCol i ≠ K :=
    fun K hK => ((headerKeys_ne_tripletCols K hK i h2).2.2).symm
  simp only [B11.excelItem]
  rw [applyTriplets_val _ 1 i _ (le_refl 1) (by omega) h2]
  by_cases hin : 1 ≤ i ∧ i < 1 + (eligibleTriplets B11.SRC_params r).length
  · rw [if_pos hin, if_pos (by omega)]
  · rw [if_neg hin, if_neg (by omega)]
    have n1 : valCol i ≠ "Посилання_зображення" := hne _ (by decide)
    have n2 : valCol i ≠ "Кількість" := hne _ (by decide)
    have n3 : valCol i ≠ "Валюта" := hne _ (by decide)
    have n4 : valCol i ≠ "Ціна" := hne _ (by decide)
    have n7 : valCol i ≠ "Назва_позиції_укр" := hne _ (by decide)
    have n8 : valCol i ≠ "Назва_позиції" := hne _ (by decide)
    have n9 : valCol i ≠ "Код_товару" := hne _ (by decide)
    simp only [dset, initItem, if_neg n1, if_neg n2, if_neg n3, if_neg n4,
      if_neg n7, if_neg n8, if_neg n9]
    by_cases hle : i ≤ 20
    · rw [if_pos ((valCol_mem_cols11 i h2).mpr ⟨h1, hle⟩), if_pos hle]
    · rw [if_neg (fun hmem => hle ((valCol_mem_cols11 i h2).mp hmem).2), if_neg hle]

/-- C4 (amended): bot_1_0's tabular exporter fills value-column `i` with
the `i`-th eligible triplet of the FIRST 15 (alias-list order), leaves the
remaining columns of its 15-group schema empty, and has no column beyond
group 15 — extras are silently dropped.  bot_1_1's exporter applies NO cap:
value-column `i` carries the `i`-th eligible triplet whenever one exists
(even for `i = 21`, beyond its declared 20-group schema), and only
otherwise falls back to the schema's empty cells. -/
theorem claim_C4_attribute_cap (r : Row) (pid colQty : String) (i : Nat)
    (h1 : 1 ≤ i) (h2 : i < 22) :
    (B10.excelItem pid colQty r (valCol i) =
      (if i ≤ 15
       then some ((((eligibleTriplets B10.SRC_params r).take 15)[i - 1]?).elim (Cell.s "")
         (fun t => Cell.s t.2.2))
       else none))
    ∧ (B11.excelItem colQty r (valCol i) =
      (if i ≤ (eligibleTriplets B11.SRC_params r).length
       then ((eligibleTriplets B11.SRC_params r)[i - 1]?).map (fun t => Cell.s t.2.2)
       else if i ≤ 20 then some (Cell.s "") else none)) :=
  ⟨B10_excelItem_valCol pid colQty r i h1 h2, B11_excelItem_valCol colQty r i h1 h2⟩

/-- A row in which all 21 attribute alias columns are eligible. -/
def exC4_row : Row :=
  [("size of the set", Cell.s "v1"), ("size extra", Cell.s "v2"), ("sheet size", Cell.s "v3"),
   ("size of the pillowcase", Cell.s "v4"), ("dimensions of the duvet cover", Cell.s "v5"),
   ("fabric type", Cell.s "v6"), ("composition", Cell.s "v7"), ("density", Cell.s "v8"),
   ("color", Cell.s "v9"), ("country of manufacture", Cell.s "v10"),
   ("brand registration country", Cell.s "v11"), ("producer", Cell.s "v12"),
   ("sheet", Cell.s "v13"), ("pillowcase", Cell.s "v14"),
   ("a feature of pillowcases", Cell.s "v15"), ("sheet with elastic band", Cell.s "v16"),
   ("gift packaging", Cell.s "v17"), ("available layout options", Cell.s "v18"),
   ("fabrics \"a\" (top of the quilt)", Cell.s "v19"), ("fabrics \"b\" (bed sheet)", Cell.s "v20"),
   ("bonus", Cell.s "v21"), ("Код_товару", Cell.s "Z1")]

/-- The one-record merged-style table built from that row. -/
def exC4_table : Table := ⟨exC4_row.map Prod.fst, [exC4_row]⟩

/-- C4 counterexample: a record with 21 eligible attributes (one more than
bot_1_1's 20-group schema) makes bot_1_1's tabular exporter emit a 21st
triplet group — a column that is not even part of its declared schema —
instead of emitting exactly the configured maximum with extras dropped. -/
theorem claim_C4_counterexample :
    (B11.to_prom_excel exC4_table).map (fun it => it "Значення_Характеристики_21")
      = [some (Cell.s "v21")]
    ∧ ¬ ("Значення_Характеристики_21" ∈ B11.PROM_XLS_COLS) := by
  refine ⟨?_, ?_⟩ <;> decide

/-- Witness for C4 at the 21-attribute row and column index 21. -/
theorem claim_C4_attribute_cap_witness :
    B11.excelItem "quantity" exC4_row (valCol 21) =
      (if 21 ≤ (eligibleTriplets B11.SRC_params exC4_row).length
       then ((eligibleTriplets B11.SRC_params exC4_row)[21 - 1]?).map (fun t => Cell.s t.2.2)
       else if 21 ≤ 20 then some (Cell.s "") else none) :=
  (claim_C4_attribute_cap exC4_row "Z1" "quantity" 21 (by decide) (by decide)).2

theorem B10_excelItem_id (pid colQty : String) (r : Row) :
    B10.excelItem pid colQty r "Код_товару" = some (Cell.s (strTake 25 pid)) := by
  have hb : 1 + ((eligibleTriplets B10.SRC_params r).take 15).length ≤ 22 := by
    have := List.length_take_le 15 (eligibleTriplets B10.SRC_params r)
    omega
  simp only [B10.excelItem]
  rw [applyTriplets_ne _ 1 _ _ hb
    (fun i hi => headerKeys_ne_tripletCols "Код_товару" (by decide) i hi)]
  simp [dset]

theorem B12_excelItem_id (colQty : String) (keyReq : List String) (r : Row) :
    B12.excelItem colQty keyReq r "Код_товару" = some (rowGet r "Код_товару" (Cell.s "")) := by
  have hb : 1 + (eligibleTriplets B12.SRC_params r).length ≤ 22 := by
    have h := eligibleTriplets_length_le B12.SRC_params r
    have h21 : B12.SRC_params.length = 21 := rfl
    omega
  simp only [B12.excelItem]
  rw [applyTriplets_ne _ 1 _ _ hb
    (fun i hi => headerKeys_ne_tripletCols "Код_товару" (by decide) i hi)]
  by_cases hkr : keyReq ≠ []
  · rw [if_pos hkr]
    simp [dset]
  · rw [if_neg hkr]
    simp [dset]

/-- C6 (amended): bot_1_0's tabular exporter writes the trimmed identifier
truncated to 25 characters into the id column (empty-id rows dropped);
bot_1_1's and bot_1_2's tabular exporters write the raw `Код_товару` cell
through unchanged — no truncation (the cell is trimmed only because the
merge step stored a stripped string there). -/
theorem claim_C6_id_truncation (df : Table) :
    ((B10.to_prom_excel df).map (fun it => it "Код_товару")
      = df.rows.filterMap (fun r =>
          if pyStrip (pyStr (rowGet r ((find_first_col df B10.SRC_id).getD "код")
              (Cell.s ""))) = ""
          then none
          else some (some (Cell.s (strTake 25 (pyStrip (pyStr (rowGet r
            ((find_first_col df B10.SRC_id).getD "код") (Cell.s "")))))))))
    ∧ ∀ keyReq : List String,
      (B12.to_prom_excel df keyReq).map (fun it => it "Код_товару")
        = df.rows.map (fun r => some (rowGet r "Код_товару" (Cell.s ""))) := by
  constructor
  · simp only [B10.to_prom_excel]
    rw [List.map_filterMap]
    apply List.filterMap_congr
    intro r _
    by_cases h : pyStrip (pyStr (rowGet r ((find_first_col df B10.SRC_id).getD "код")
        (Cell.s ""))) = ""
    · rw [if_pos h, if_pos h]
      rfl
    · rw [if_neg h, if_neg h, Option.map_some']
      rw [B10_excelItem_id]
  · intro keyReq
    simp only [B12.to_prom_excel]
    rw [List.map_map]
    apply List.map_congr_left
    intro r _
    exact B12_excelItem_id _ keyReq r

/-- A 30-character identifier. -/
def exC6_id : String := "A01234567890123456789012345678"

/-- A merged-style table carrying that identifier. -/
def exC6_table : Table := ⟨["Код_товару"], [[("Код_товару", Cell.s exC6_id)]]⟩

/-- C6 counterexample: bot_1_2's tabular exporter emits the 30-character
identifier unshortened — the claim that every emitted id is truncated to at
most 25 characters is false of bot_1_2 (and bot_1_1). -/
theorem claim_C6_counterexample :
    (B12.to_prom_excel exC6_table []).map (fun it => it "Код_товару")
      = [some (Cell.s exC6_id)]
    ∧ ¬ (exC6_id.length ≤ 25) := by
  refine ⟨?_, ?_⟩ <;> decide

theorem B11_excelItem_price (colQty : String) (r : Row) :
    B11.excelItem colQty r "Ціна" = some (priceCell (B11.pick_price r)) := by
  have hb : 1 + (eligibleTriplets B11.SRC_params r).length ≤ 22 := by
    have h := eligibleTriplets_length_le B11.SRC_params r
    have h21 : B11.SRC_params.length = 21 := rfl
    omega
  simp only [B11.excelItem]
  rw [applyTriplets_ne _ 1 _ _ hb
    (fun i hi => headerKeys_ne_tripletCols "Ціна" (by decide) i hi)]
  simp [dset]

theorem B10_excelItem_price (pid colQty : String) (r : Row) :
    B10.excelItem pid colQty r "Ціна" = some (priceCell (B10.pick_price r)) := by
  have hb : 1 + ((eligibleTriplets B10.SRC_params r).take 15).length ≤ 22 := by
    have := List.length_take_le 15 (eligibleTriplets B10.SRC_params r)
    omega
  simp only [B10.excelItem]
  rw [applyTriplets_ne _ 1 _ _ hb
    (fun i hi => headerKeys_ne_tripletCols "Ціна" (by decide) i hi)]
  simp [dset]

theorem B11_offerNode_price_count (colQty baseId : String) (r : Row) :
    (B11.offerNode colQty r baseId).children.countP (fun l => l.tag == "price")
      = if (B11.pick_price r).isSome then 1 else 0 := by
  rcases hp : B11.pick_price r with _ | q <;>
    simp [B11.offerNode, hp, List.countP_append, List.countP_cons, List.countP_map,
      apply_ite (List.countP (fun l : Leaf => l.tag == "price")), Function.comp]

theorem B10_offerNode_price_count (colQty baseId : String) (r : Row) :
    (B10.offerNode colQty r baseId).children.countP (fun l => l.tag == "price")
      = (match B10.pick_price r with
         | some q => if q = 0 then 0 else 1
         | none => 0) := by
  rcases hp : B10.pick_price r with _ | q
  · simp [B10.offerNode, hp, List.countP_append, List.countP_cons, List.countP_map,
      apply_ite (List.countP (fun l : Leaf => l.tag == "price")), Function.comp]
  · by_cases hq : q = 0 <;>
      simp [B10.offerNode, hp, hq, List.countP_append, List.countP_cons, List.countP_map,
        apply_ite (List.countP (fun l : Leaf => l.tag == "price")), Function.comp]

/-- C9 (amended): every tabular exporter writes `pick_price(r) or ''`, so
the price column carries the parsed decimal only when it is present AND
nonzero, and the empty string when the price is absent OR equal to zero;
bot_1_1's tree exporter (`if price is not None:`) emits the price node
exactly when extraction yields a value — including zero — while bot_1_0's
(`if price:`) omits the node for an absent OR zero price. -/
theorem claim_C9_price_presence (pid colQty baseId : String) (r : Row) :
    (B11.excelItem colQty r "Ціна"
      = some (match B11.pick_price r with
              | some q => if q = 0 then Cell.s "" else Cell.num q
              | none => Cell.s ""))
    ∧ (B10.excelItem pid colQty r "Ціна"
      = some (match B10.pick_price r with
              | some q => if q = 0 then Cell.s "" else Cell.num q
              | none => Cell.s ""))
    ∧ ((B11.offerNode colQty r baseId).children.countP (fun l => l.tag == "price")
      = if (B11.pick_price r).isSome then 1 else 0)
    ∧ ((B10.offerNode colQty r baseId).children.countP (fun l => l.tag == "price")
      = (match B10.pick_price r with
         | some q => if q = 0 then 0 else 1
         | none => 0)) := by
  have hcell : ∀ p : Option Rat, priceCell p
      = (match p with
         | some q => if q = 0 then Cell.s "" else Cell.num q
         | none => Cell.s "") := by
    intro p
    rcases p with _ | q
    · rfl
    · by_cases hq : q = 0 <;> simp [priceCell, hq]
  refine ⟨?_, ?_, B11_offerNode_price_count colQty baseId r,
    B10_offerNode_price_count colQty baseId r⟩
  · rw [B11_excelItem_price, hcell]
  · rw [B10_excelItem_price, hcell]

/-- A record whose price parses to zero. -/
def exC9_row : Row := [("price", Cell.s "0"), ("Код_товару", Cell.s "P1")]

/-- C9 counterexample: with a present price `"0"`, extraction yields `0.0`,
yet the tabular price column holds the empty string (Python `0.0 or ''`)
and bot_1_0's tree exporter omits the price node — both contradict the
claim's "including zero"; bot_1_1's tree exporter does emit the node. -/
theorem claim_C9_counterexample :
    B11.pick_price exC9_row = some 0
    ∧ B11.excelItem "quantity" exC9_row "Ціна" = some (Cell.s "")
    ∧ Cell.s "" ≠ Cell.num 0
    ∧ (B10.offerNode "quantity" exC9_row "P1").children.countP (fun l => l.tag == "price") = 0
    ∧ (B11.offerNode "quantity" exC9_row "P1").children.countP (fun l => l.tag == "price") = 1 := by
  refine ⟨?_, ?_, ?_, ?_, ?_⟩ <;> decide

theorem length_filterMap_guard {α β : Type _} (l : List α) (q : α → String) (f : α → β) :
    (l.filterMap (fun a => if q a = "" then none else some (f a))).length
      = (l.filter (fun a => q a ≠ "")).length := by
  induction l with
  | nil => rfl
  | cons a t ih =>
    by_cases h : q a = "" <;>
      simp [List.filterMap_cons, List.filter_cons, h, ih]

/-- C2 (amended): bot_1_0's tabular exporter and both tree exporters emit
exactly one row/offer per record with nonempty trimmed identifier (rows
with empty resolved id are absent, and the output count is the merged count
minus the empty-id rows (filter count)); bot_1_1's tabular exporter has no such
skip — it emits one output row per merged row unconditionally, empty ids
included. -/
theorem claim_C2_empty_id_rows (df : Table) :
    ((B10.to_prom_excel df).length
      = (df.rows.filter (fun r =>
          pyStrip (pyStr (rowGet r ((find_first_col df B10.SRC_id).getD "код")
            (Cell.s ""))) ≠ "")).length)
    ∧ ((B10.offersOf df).length
      = (df.rows.filter (fun r =>
          pyStrip (pyStr (rowGet r ((find_first_col df B10.SRC_id).getD "код")
            (Cell.s ""))) ≠ "")).length)
    ∧ ((B11.to_prom_excel df).length = df.rows.length)
    ∧ ((B11.offersOf df).length
      = (df.rows.filter (fun r =>
          pyStrip (pyStr (rowGet r "Код_товару" (Cell.s ""))) ≠ "")).length) := by
  refine ⟨?_, ?_, ?_, ?_⟩
  · simp only [B10.to_prom_excel]
    exact length_filterMap_guard df.rows _ _
  · simp only [B10.offersOf]
    exact length_filterMap_guard df.rows _ _
  · simp [B11.to_prom_excel]
  · simp only [B11.offersOf]
    exact length_filterMap_guard df.rows _ _

/-- A merged-style table with one blank-identifier row and one good row. -/
def exC2_table : Table :=
  ⟨["Код_товару", "Назва_позиції"],
   [[("Код_товару", Cell.s " "), ("Назва_позиції", Cell.s "no-id")],
    [("Код_товару", Cell.s "A1"), ("Назва_позиції", Cell.s "ok")]]⟩

/-- C2 counterexample: on a merged table with 2 rows of which 1 has an
empty trimmed identifier, bot_1_1's tabular exporter emits 2 rows — the
blank-id record included — not `2 - 1 = 1` as the claim requires. -/
theorem claim_C2_counterexample :
    (B11.to_prom_excel exC2_table).length = 2
    ∧ (exC2_table.rows.filter (fun r =>
        pyStrip (pyStr (rowGet r "Код_товару" (Cell.s ""))) ≠ "")).length = 1
    ∧ (B11.to_prom_excel exC2_table).map (fun it => it "Код_товару")
        = [some (Cell.s " "), some (Cell.s "A1")]
    ∧ ¬ ((B11.to_prom_excel exC2_table).length = 1) := by
  refine ⟨?_, ?_, ?_, ?_⟩ <;> decide

/-- C8 (amended): no typed merge error exists.  When an identifier column
resolves in neither input (or only one), bot_1_0's `merge_ru_ua` silently
RETURNS the normalized base table as a partial result; bot_1_1's falls back
to the column name `"код"` and, when that is not an actual column, fails
with a plain pandas `KeyError` — a generic failure, not a distinct
`UnresolvableIdentifierColumn`. -/
theorem claim_C8_no_typed_error :
    (∀ dfRu dfUa : Table,
      (find_first_col (normalize_df dfRu) B10.SRC_id = none
        ∨ find_first_col (normalize_df dfUa) B10.SRC_id = none) →
      B10.merge_ru_ua dfRu dfUa = Except.ok (normalize_df dfRu))
    ∧ (∀ dfRu dfUa : Table,
      find_first_col (normalize_df dfRu) B11.SRC_id = none →
      "код" ∉ (normalize_df dfRu).header →
      B11.merge_ru_ua dfRu dfUa = Except.error ("KeyError: " ++ "код")) := by
  constructor
  · intro dfRu dfUa h
    rcases hru : find_first_col (normalize_df dfRu) B10.SRC_id with _ | cru
    · rcases hua : find_first_col (normalize_df dfUa) B10.SRC_id with _ | cua <;>
        simp [B10.merge_ru_ua, hru, hua]
    · rcases hua : find_first_col (normalize_df dfUa) B10.SRC_id with _ | cua
      · simp [B10.merge_ru_ua, hru, hua]
      · exfalso
        rcases h with h | h
        · rw [hru] at h
          exact Option.noConfusion h
        · rw [hua] at h
          exact Option.noConfusion h
  · intro dfRu dfUa h hk
    simp [B11.merge_ru_ua, h, addStrippedCol, hk, Bind.bind, Except.bind]

/-- A base table with no resolvable identifier column. -/
def exC8_ru : Table := ⟨["name"], [[("name", Cell.s "x")]]⟩

/-- A translation table with no resolvable identifier column either. -/
def exC8_ua : Table := ⟨["назва"], [[("назва", Cell.s "y")]]⟩

/-- C8 counterexample: with no id alias resolvable in either table the
merge does NOT abort with a typed error — bot_1_0 successfully returns the
(normalized) base table as a partial result and bot_1_1 raises a generic
`KeyError` on the fallback column. -/
theorem claim_C8_counterexample :
    B10.merge_ru_ua exC8_ru exC8_ua = Except.ok (normalize_df exC8_ru)
    ∧ B11.merge_ru_ua exC8_ru exC8_ua = Except.error "KeyError: код" :=
  ⟨rfl, rfl⟩

/-- Witness for C8's amended statement at the concrete table pair. -/
theorem claim_C8_no_typed_error_witness :
    B11.merge_ru_ua exC8_ru exC8_ua = Except.error ("KeyError: " ++ "код") :=
  claim_C8_no_typed_error.2 exC8_ru exC8_ua (by decide) (by decide)

/-- C10: the embedded pipeline — in which the Python-level sources of
ordering (insertion-ordered dict deduplication, stable left join) are
deterministic functions — produces identical artifacts on equal inputs:
running merge followed by either exporter twice cannot differ. -/
theorem claim_C10_determinism (a b a2 b2 : Table) (h1 : a = a2) (h2 : b = b2) :
    B11.pipelineYml a b = B11.pipelineYml a2 b2
    ∧ B11.pipelineXlsx a b = B11.pipelineXlsx a2 b2 := by
  subst h1
  subst h2
  exact ⟨rfl, rfl⟩

/-- Concrete base table for the determinism witness. -/
def exC10_ru : Table :=
  ⟨["product code", "name"], [[("product code", Cell.s "7"), ("name", Cell.s "N")]]⟩

/-- Concrete translation table for the determinism witness. -/
def exC10_ua : Table :=
  ⟨["product code", "name"], [[("product code", Cell.s "7"), ("name", Cell.s "M")]]⟩

/-- Witness for C10 at a concrete pair of uploads. -/
theorem claim_C10_determinism_witness :
    B11.pipelineYml exC10_ru exC10_ua = B11.pipelineYml exC10_ru exC10_ua
    ∧ B11.pipelineXlsx exC10_ru exC10_ua = B11.pipelineXlsx exC10_ru exC10_ua :=
  claim_C10_determinism exC10_ru exC10_ua exC10_ru exC10_ua rfl rfl

/-- Witness for C2 at the concrete two-row table. -/
theorem claim_C2_empty_id_rows_witness :
    (B11.to_prom_excel exC2_table).length = exC2_table.rows.length :=
  (claim_C2_empty_id_rows exC2_table).2.2.1

/-- Witness for C3 at the unparseable-then-parseable row. -/
theorem claim_C3_price_policy_witness :
    B11.pick_price exC3_row = (firstPresentPriceVal B11.SRC_price exC3_row).bind parsePriceStr
    ∧ B10.pick_price exC3_row
        = ((presentPriceVals B10.SRC_price exC3_row).filterMap parsePriceStr).head? :=
  ⟨(claim_C3_price_policy exC3_row).1, (claim_C3_price_policy exC3_row).2.2⟩

/-- Witness for C6 at the 30-character-identifier table. -/
theorem claim_C6_id_truncation_witness :
    (B12.to_prom_excel exC6_table []).map (fun it => it "Код_товару")
      = exC6_table.rows.map (fun r => some (rowGet r "Код_товару" (Cell.s ""))) :=
  (claim_C6_id_truncation exC6_table).2 []

/-- Witness for C9 at the zero-price row. -/
theorem claim_C9_price_presence_witness :
    B11.excelItem "quantity" exC9_row "Ціна"
      = some (match B11.pick_price exC9_row with
              | some q => if q = 0 then Cell.s "" else Cell.num q
              | none => Cell.s "") :=
  (claim_C9_price_presence "P1" "quantity" "P1" exC9_row).1
